import Mathlib

/-!
Verification of the development-environment configuration resolver of
`wazuh-dashboard-plugins` (`docker/osd-dev/scripts/src`).

The embedding covers:
- `services/repoResolver.ts` : `resolveRepositoryHostPath` and `parseArguments`
  (the file holds the repository resolver and the argument parser);
- `services/environmentConfigurator.ts` : `configureModeAndSecurity`.

Supporting modules (`utils/pathUtils.ts`, `types/config.ts`,
`constants/app.ts`, `constants/messages.ts`, `errors.ts`) are not part of
the provided sources; they are modelled from the specification and are
marked `Modelled from the spec:` in their doc comments.

JavaScript strings are `String`; `undefined` for a missing argv token is a
`List` pattern falling off the end; truthiness of a string is comparison
with `""`.  Mutation of `process.env` is made explicit: the parser returns
the ordered list of environment-variable writes it performed, also when it
ends in an error, and the mode configurator returns the updated
environment record next to its result string.
-/

/-- String prefix test, the embedding of JavaScript `String.startsWith`
(computed on the character list so the kernel can evaluate it). -/
def strStartsWith (s pre : String) : Bool :=
  pre.data.isPrefixOf s.data

/-- Character containment, the embedding of JavaScript `String.includes`
for a single-character needle. -/
def strContainsChar (s : String) (c : Char) : Bool :=
  s.data.contains c

/-- Does `pat` occur as a contiguous run inside `l`? -/
def listHasInfix (pat : List Char) : List Char → Bool
  | [] => pat.isEmpty
  | x :: xs => pat.isPrefixOf (x :: xs) || listHasInfix pat xs

/-- Substring containment, the embedding of JavaScript `String.includes`
for a multi-character needle. -/
def strContainsSubstr (s pat : String) : Bool :=
  listHasInfix pat.data s.data

/-- Split a character list at every occurrence of `c`, the embedding of
JavaScript `String.split`.  Always returns at least one segment. -/
def splitOnChar (c : Char) : List Char → List (List Char)
  | [] => [[]]
  | x :: xs =>
    let r := splitOnChar c xs
    if x = c then [] :: r
    else
      match r with
      | [] => [[x]]
      | y :: ys => (x :: y) :: ys

/-- Modelled from the spec: `pathUtils.stripTrailingSlash` — removes the
trailing slashes of a path; one application is idempotent (§8 round-trip
property). -/
def stripTrailingSlash (s : String) : String :=
  String.mk (((s.data.reverse).dropWhile (fun c => c = '/')).reverse)

/-- Modelled from the spec: node's `path.resolve(base, sub)` for the uses
in this code base — an absolute `sub` stands alone, otherwise it is joined
under `base`. -/
def pathResolve (base sub : String) : String :=
  if strStartsWith sub "/" then sub
  else stripTrailingSlash base ++ "/" ++ sub

/-! ## Constants (`constants/app.ts`, modelled from the spec) -/

/-- Modelled from the spec: `FLAGS.HELP`. -/
def FLAGS_HELP : String := "--help"

/-- Modelled from the spec: `FLAGS.HELP_SHORT`. -/
def FLAGS_HELP_SHORT : String := "-h"

/-- Modelled from the spec: `FLAGS.PLUGINS_ROOT`. -/
def FLAGS_PLUGINS_ROOT : String := "--plugins-root"

/-- Modelled from the spec: `FLAGS.PLUGINS_ROOT_WDP`, first alias of the
plugins-root flag. -/
def FLAGS_PLUGINS_ROOT_WDP : String := "--wdp-home"

/-- Modelled from the spec: `FLAGS.PLUGINS_ROOT_WZ_HOME`, second alias of
the plugins-root flag. -/
def FLAGS_PLUGINS_ROOT_WZ_HOME : String := "--wz-home"

/-- Modelled from the spec: `FLAGS.OS_VERSION`. -/
def FLAGS_OS_VERSION : String := "--os"

/-- Modelled from the spec: `FLAGS.OSD_VERSION`. -/
def FLAGS_OSD_VERSION : String := "--osd"

/-- Modelled from the spec: `FLAGS.AGENTS_UP` (requested with `-a`
together with the server-local flag). -/
def FLAGS_AGENTS_UP : String := "-a"

/-- Modelled from the spec: `FLAGS.SAML`. -/
def FLAGS_SAML : String := "--saml"

/-- Modelled from the spec: `FLAGS.SERVER`. -/
def FLAGS_SERVER : String := "--server"

/-- Modelled from the spec: `FLAGS.SERVER_LOCAL`. -/
def FLAGS_SERVER_LOCAL : String := "--server-local"

/-- Modelled from the spec: `FLAGS.REPO`. -/
def FLAGS_REPO : String := "--repo"

/-- Modelled from the spec: `FLAGS.BASE`. -/
def FLAGS_BASE : String := "--base"

/-- Modelled from the spec: `FLAGS.INDEXER_LOCAL`. -/
def FLAGS_INDEXER_LOCAL : String := "--indexer-local"

/-- Modelled from the spec: the values of `ACTIONS`, the fixed allow-set
of orchestration verbs (the spec names `up` as an example). -/
def ACTIONS_LIST : List String := ["up", "down", "stop"]

/-- Modelled from the spec: `PROFILES.STANDARD`. -/
def PROFILES_STANDARD : String := "standard"

/-- Modelled from the spec: `PROFILES.SAML`. -/
def PROFILES_SAML : String := "saml"

/-- Modelled from the spec: `PROFILES.SERVER`. -/
def PROFILES_SERVER : String := "server"

/-- Modelled from the spec: `PROFILES.SERVER_LOCAL`. -/
def PROFILES_SERVER_LOCAL : String := "server-local"

/-- Modelled from the spec: `SECURITY_PLUGIN_ALIASES` — the known
security-plugin shorthand names canonicalized by the repo flag. -/
def SECURITY_PLUGIN_ALIASES : List String := ["security", "security-plugin"]

/-- Modelled from the spec: `SECURITY_PLUGIN_REPO_NAME` — the one fixed
repository name the security-plugin aliases canonicalize to. -/
def SECURITY_PLUGIN_REPO_NAME : String := "wazuh-security-dashboards-plugin"

/-- Modelled from the spec: `OSD_MAJOR_2X`, the pinned 2.x major track. -/
def OSD_MAJOR_2X : String := "2.x"

/-- Modelled from the spec: `SECURITY_CONFIG_PATHS[OSD_MAJOR_2X]`, the
security-config root for the 2.x track. -/
def SECURITY_CONFIG_PATHS_2X : String :=
  "/usr/share/opensearch/config/opensearch-security"

/-! ## Messages (`constants/messages.ts`, modelled from the spec) -/

/-- Modelled from the spec: `msgEnvNotSet`. -/
def msgEnvNotSet (v : String) : String :=
  "Environment variable " ++ v ++ " is not set"

/-- Modelled from the spec: `msgRepoPathMustBeAbsolute`. -/
def msgRepoPathMustBeAbsolute (name path : String) : String :=
  "Repository path for " ++ name ++ " must be absolute, got " ++ path

/-- Modelled from the spec: `msgRepoPathNotProvided`. -/
def msgRepoPathNotProvided (name : String) : String :=
  "Repository path for " ++ name ++ " not provided and could not be auto-detected"

/-- Modelled from the spec: `msgInvalidRepoSubfolder`. -/
def msgInvalidRepoSubfolder (name path : String) : String :=
  "Repository " ++ name ++ " must point at the repository root, not a plugins subfolder: " ++ path

/-- Modelled from the spec: `msgFlagRequiresAbsolutePath`. -/
def msgFlagRequiresAbsolutePath (flag : String) : String :=
  flag ++ " requires an absolute path"

/-- Modelled from the spec: `msgFlagRequiresValue`. -/
def msgFlagRequiresValue (flag example_ : String) : String :=
  flag ++ " requires a value, e.g. " ++ flag ++ " " ++ example_

/-- Modelled from the spec: `msgInvalidAgentsUp`. -/
def msgInvalidAgentsUp (flag : String) : String :=
  flag ++ " must be one of rpm, deb, without"

/-- Message of the server flag when its value is missing (inline template
literal in `parseArguments`). -/
def msgServerFlagRequiresValue : String :=
  FLAGS_SERVER ++ " requires a version argument, e.g. " ++ FLAGS_SERVER ++ " 4.12.0"

/-- Message of the server-local flag when its value is missing (inline
template literal in `parseArguments`). -/
def msgServerLocalFlagRequiresValue : String :=
  FLAGS_SERVER_LOCAL ++ " requires a version/tag argument, e.g. " ++ FLAGS_SERVER_LOCAL ++ " my-tag"

/-- Message of an invalid `repo=path` specification (inline template
literal in `parseArguments`). -/
def msgInvalidRepoSpec (s : String) : String :=
  "Invalid repository specification " ++ s ++ ". Expected format repo=/absolute/path."

/-- Modelled from the spec: `msgCannotResolveRepositoryUnderCommonParent`. -/
def msgCannotResolveRepositoryUnderCommonParent (name flag envVar : String) : String :=
  "Cannot resolve repository " ++ name ++ " given with " ++ flag ++
    " under the common parent directory: " ++ envVar ++ " is not set"

/-- Modelled from the spec: `msgUnsupportedOption`. -/
def msgUnsupportedOption (arg : String) : String :=
  "Unsupported option " ++ arg

/-- Modelled from the spec: `msgActionProvidedMultiple`. -/
def msgActionProvidedMultiple (first second : String) : String :=
  "Action provided multiple times: " ++ first ++ " and " ++ second

/-- Modelled from the spec: `msgPositionalArgsNotAllowed`. -/
def msgPositionalArgsNotAllowed (arg : String) : String :=
  "Positional arguments are not allowed: " ++ arg

/-- Modelled from the spec: `msgCannotInferDashboardBase`. -/
def msgCannotInferDashboardBase : String :=
  "Cannot infer the dashboard base path: SIBLING_REPO_HOST_ROOT is not set"

/-- Modelled from the spec: `msgUnableLocateWazuhDashboardAuto`. -/
def msgUnableLocateWazuhDashboardAuto : String :=
  "Unable to locate wazuh-dashboard automatically"

/-- Modelled from the spec: `msgBaseRequiresAbsolute`. -/
def msgBaseRequiresAbsolute : String :=
  FLAGS_BASE ++ " requires an absolute path"

/-- Modelled from the spec: `msgCannotCombineServerFlags`. -/
def msgCannotCombineServerFlags : String :=
  "Cannot combine " ++ FLAGS_SERVER ++ " and " ++ FLAGS_SERVER_LOCAL

/-- Modelled from the spec: `msgUnsupportedModeToken`. -/
def msgUnsupportedModeToken : String :=
  "Unsupported mode token: request agents with the agents-up flag instead"

/-- Modelled from the spec: `MSG_SERVER_MODE_REQUIRES_VERSION`. -/
def MSG_SERVER_MODE_REQUIRES_VERSION : String :=
  "server mode requires a version"

/-- Modelled from the spec: `MSG_SERVER_LOCAL_MODE_REQUIRES_VERSION`. -/
def MSG_SERVER_LOCAL_MODE_REQUIRES_VERSION : String :=
  "server-local mode requires a version/tag"

/-- Modelled from the spec: message of a failed accessibility check in
`pathUtils.ensureAccessibleHostPath`, naming the offending label. -/
def msgNotAccessible (label path : String) : String :=
  label ++ " is not accessible from the container: " ++ path

/-! ## Errors (`errors.ts`, modelled from the spec §7) plus the two
non-exception exits of the parser (help, and the JavaScript `TypeError`
raised by a property access on `undefined`). -/

/-- Modelled from the spec: the error taxonomy — `ValidationError` for bad
user input, `ConfigurationError` for missing ambient environment.
`helpExit` stands for `printUsageAndExit` (`process.exit(1)`), and `crash`
for an uncaught JavaScript `TypeError`. -/
inductive ScriptError where
  | validation (msg : String)
  | configuration (msg : String)
  | helpExit
  | crash (msg : String)
deriving DecidableEq, Repr

/-! ## Data model (`types/config.ts`, modelled from the spec §3) -/

/-- One `{name, path}` user repository override. -/
structure RepoOverride where
  name : String
  path : String
deriving DecidableEq, Repr

/-- Modelled from the spec: the `Config`/`ScriptConfig` record (§3).
Unset strings are `""` (JavaScript falsy); setters record provenance only
for diagnostics, so they are plain field updates here. -/
structure Config where
  action : String := ""
  pluginsRoot : String := ""
  osVersion : String := ""
  osdVersion : String := ""
  agentsUp : String := ""
  enableSaml : Bool := false
  serverFlagVersion : String := ""
  serverLocalFlagVersion : String := ""
  mode : String := ""
  modeVersion : String := ""
  useDashboardFromSource : Bool := false
  dashboardBase : String := ""
  useIndexerFromPackage : Bool := false
  userRepositories : List RepoOverride := []
deriving DecidableEq, Repr

/-- The default (freshly constructed) `Config`. -/
def defaultConfig : Config := {}

/-- The `EnvironmentPaths` record of `types/config.ts`: the three ambient
host-path fields of the source, plus the ambient filesystem view that the
missing `pathUtils`/`fs` layer consults — `mounts` is the host-prefix to
container-prefix substitution table and `fsExists` the container-side
existence check.  Modelled from the spec: §3 and §4.4. -/
structure EnvironmentPaths where
  currentRepoHostRoot : String := ""
  siblingRepoHostRoot : String := ""
  packageJsonPath : String := ""
  mounts : List (String × String) := []
  fsExists : String → Bool := fun _ => false

/-! ## PathUtils (`utils/pathUtils.ts`, modelled from the spec §4.4) -/

/-- Modelled from the spec: `pathUtils.toContainerPath` — prefix
substitution of a host path into the container mount namespace; `none`
(the source's empty string) when the path is under no known mount. -/
def toContainerPath (p : String) (env : EnvironmentPaths) : Option String :=
  env.mounts.findSome? fun m =>
    if m.1.data.isPrefixOf p.data then
      some (String.mk (m.2.data ++ p.data.drop m.1.data.length))
    else none

/-- Modelled from the spec: `pathUtils.ensureAccessibleHostPath` — fails,
naming the offending label, when the host path translates to no container
path or the translated path does not exist. -/
def ensureAccessibleHostPath (p label : String) (env : EnvironmentPaths) :
    Except ScriptError Unit :=
  match toContainerPath p env with
  | none => .error (.validation (msgNotAccessible label p))
  | some cp =>
    if env.fsExists cp then .ok ()
    else .error (.validation (msgNotAccessible label p))

/-! ## Repository resolver (`services/repoResolver.ts`, first file) -/

/-- The override branch of `resolveRepositoryHostPath`: the host path
taken from the first `userRepositories` entry whose `name` matches
(`Array.find`), stripped — `""` when there is no match or the recorded
path is empty. -/
def overrideHostPath (repoName : String) (config : Config) : String :=
  match config.userRepositories.find? (fun o => o.name == repoName) with
  | none => ""
  | some o => if o.path ≠ "" then stripTrailingSlash o.path else ""

/-- The three probe sub-paths tried under one candidate base, in source
order. -/
def probesFor (base repoName : String) : List String :=
  [base ++ "/plugins/" ++ repoName, base ++ "/" ++ repoName, base]

/-- Is a probed sub-path accepted: it translates to a container path that
exists and holds `package.json` directly under it. -/
def acceptCandidate (env : EnvironmentPaths) (candidate : String) : Bool :=
  match toContainerPath candidate env with
  | none => false
  | some cc => env.fsExists cc && env.fsExists (pathResolve cc "package.json")

/-- The candidate base directories of the auto-detection search, in source
order: `pluginsRoot` when set, `currentRepoHostRoot`, then the two
sibling-root folders when a sibling root is set; all stripped of trailing
slashes (`candidateBases.map(stripTrailingSlash)`). -/
def candidateBases (config : Config) (env : EnvironmentPaths) : List String :=
  ((if config.pluginsRoot ≠ "" then [config.pluginsRoot] else []) ++
    [env.currentRepoHostRoot] ++
    (if env.siblingRepoHostRoot ≠ "" then
      [pathResolve env.siblingRepoHostRoot "wazuh-dashboard-plugins",
       pathResolve env.siblingRepoHostRoot "wazuh-dashboard"]
     else [])).map stripTrailingSlash

/-- The `candidateBases.find` loop: the first base (skipping empty ones)
with an accepted probe yields that accepted probe (the source records it
in `hostPath` from inside the predicate). -/
def searchBases (repoName : String) (env : EnvironmentPaths) :
    List String → Option String
  | [] => none
  | b :: bs =>
    if b = "" then searchBases repoName env bs
    else
      match (probesFor b repoName).find? (acceptCandidate env) with
      | some c => some c
      | none => searchBases repoName env bs

/-- `resolveRepositoryHostPath` of `services/repoResolver.ts`. -/
def resolveRepositoryHostPath (repoName : String) (config : Config)
    (envPaths : EnvironmentPaths) : Except ScriptError String :=
  let hostPath := overrideHostPath repoName config
  if hostPath ≠ "" then
    if strStartsWith hostPath "/" = false then
      .error (.validation (msgRepoPathMustBeAbsolute repoName hostPath))
    else
      match ensureAccessibleHostPath hostPath
          ("Repository path for '" ++ repoName ++ "'") envPaths with
      | .error e => .error e
      | .ok _ => .ok (stripTrailingSlash hostPath)
  else
    if envPaths.currentRepoHostRoot = "" then
      .error (.configuration (msgEnvNotSet "CURRENT_REPO_HOST_ROOT"))
    else
      match searchBases repoName envPaths (candidateBases config envPaths) with
      | none => .error (.validation (msgRepoPathNotProvided repoName))
      | some c =>
        match ensureAccessibleHostPath c
            ("Repository path for '" ++ repoName ++ "'") envPaths with
        | .error e => .error e
        | .ok _ => .ok (stripTrailingSlash c)

/-! ## Environment configurator (`services/environmentConfigurator.ts`) -/

/-- The environment variables `configureModeAndSecurity` touches. -/
structure ModeEnv where
  wazuhDashboardConf : String := ""
  secConfigFile : String := ""
  secConfigPath : String := ""
  wazuhStack : String := ""
  imageTag : String := ""
deriving DecidableEq, Repr

/-- `configureModeAndSecurity` of `services/environmentConfigurator.ts`:
returns the selected primary profile string together with the updated
environment record. -/
def configureModeAndSecurity (config : Config) (e : ModeEnv) :
    Except ScriptError (String × ModeEnv) :=
  let osdMajor := OSD_MAJOR_2X
  let e1 : ModeEnv :=
    { e with
      wazuhDashboardConf := "./config/" ++ osdMajor ++ "/osd/opensearch_dashboards.yml"
      secConfigFile := "./config/" ++ osdMajor ++ "/os/config.yml"
      secConfigPath := SECURITY_CONFIG_PATHS_2X }
  let enableSaml := config.enableSaml || config.mode == PROFILES_SAML
  let e2 : ModeEnv :=
    if enableSaml then
      { e1 with
        wazuhDashboardConf := "./config/" ++ osdMajor ++ "/osd/opensearch_dashboards_saml.yml"
        secConfigFile := "./config/" ++ osdMajor ++ "/os/config-saml.yml" }
    else e1
  if strStartsWith config.mode (PROFILES_SERVER_LOCAL ++ "-") then
    .error (.validation msgUnsupportedModeToken)
  else if config.mode = PROFILES_SERVER then
    if config.modeVersion = "" then
      .error (.validation MSG_SERVER_MODE_REQUIRES_VERSION)
    else .ok (PROFILES_SERVER, { e2 with wazuhStack := config.modeVersion })
  else if config.mode = PROFILES_SERVER_LOCAL then
    if config.modeVersion = "" then
      .error (.validation MSG_SERVER_LOCAL_MODE_REQUIRES_VERSION)
    else
      .ok ((if config.agentsUp ≠ "" then
              PROFILES_SERVER_LOCAL ++ "-" ++ config.agentsUp
            else PROFILES_SERVER_LOCAL),
           { e2 with imageTag := config.modeVersion })
  else if config.mode = PROFILES_SAML then
    .ok (PROFILES_SAML, e2)
  else
    .ok (PROFILES_STANDARD, e2)

/-! ## Argument parser (`services/repoResolver.ts`, second file) -/

/-- The post-scan dashboard-base inference (`parseArguments`
lines 395-408): when the base flag was given without a path, derive
`{siblingRepoHostRoot}/wazuh-dashboard` or fail. -/
def resolveDashboardBase (config : Config) (env : EnvironmentPaths) :
    Except ScriptError Config :=
  if config.useDashboardFromSource = true ∧ config.dashboardBase = "" then
    if env.siblingRepoHostRoot = "" then
      .error (.configuration msgCannotInferDashboardBase)
    else
      let candidate := stripTrailingSlash (pathResolve env.siblingRepoHostRoot "wazuh-dashboard")
      match toContainerPath candidate env with
      | none => .error (.validation msgUnableLocateWazuhDashboardAuto)
      | some _ => .ok { config with dashboardBase := candidate }
  else .ok config

/-- The post-scan dashboard-base validation (`parseArguments`
lines 410-419). -/
def checkDashboardBase (config : Config) (env : EnvironmentPaths) :
    Except ScriptError Unit :=
  if config.useDashboardFromSource = true then
    if strStartsWith config.dashboardBase "/" = false then
      .error (.validation msgBaseRequiresAbsolute)
    else ensureAccessibleHostPath config.dashboardBase "Dashboard base path" env
  else .ok ()

/-- The post-scan plugins-root defaulting (`parseArguments`
lines 421-426). -/
def defaultPluginsRoot (config : Config) (env : EnvironmentPaths) : Config :=
  if config.pluginsRoot = "" ∧ env.currentRepoHostRoot ≠ "" then
    { config with
      pluginsRoot := stripTrailingSlash (pathResolve env.currentRepoHostRoot "plugins") }
  else config

/-- The post-scan plugins-root accessibility check (`parseArguments`
lines 428-430). -/
def checkPluginsRoot (config : Config) (env : EnvironmentPaths) :
    Except ScriptError Unit :=
  if config.pluginsRoot ≠ "" then
    ensureAccessibleHostPath config.pluginsRoot "Base path" env
  else .ok ()

/-- The terminal flag-to-mode mapping of `parseArguments`
(lines 437-445). -/
def applyModeFlags (config : Config) : Config :=
  if config.serverFlagVersion ≠ "" then
    { config with mode := PROFILES_SERVER, modeVersion := config.serverFlagVersion }
  else if config.serverLocalFlagVersion ≠ "" then
    { config with mode := PROFILES_SERVER_LOCAL, modeVersion := config.serverLocalFlagVersion }
  else if config.enableSaml = true ∧ config.mode = "" then
    { config with mode := PROFILES_SAML }
  else config

/-- The post-scan phase of `parseArguments` (everything after the token
loop, lines 395-447), in source order. -/
def finishParse (config : Config) (env : EnvironmentPaths) :
    Except ScriptError Config :=
  match resolveDashboardBase config env with
  | .error e => .error e
  | .ok c1 =>
    match checkDashboardBase c1 env with
    | .error e => .error e
    | .ok _ =>
      let c2 := defaultPluginsRoot c1 env
      match checkPluginsRoot c2 env with
      | .error e => .error e
      | .ok _ =>
        if c2.serverFlagVersion ≠ "" ∧ c2.serverLocalFlagVersion ≠ "" then
          .error (.validation msgCannotCombineServerFlags)
        else .ok (applyModeFlags c2)

/-- The token loop of `parseArguments`.  The first component of the
result is the ordered list of `process.env` writes the scan performed (it
is returned also when the scan ends in an error, since in the source those
writes precede the failure). -/
def parseLoop : List String → Config → EnvironmentPaths →
    List (String × String) × Except ScriptError Config
  | [], config, env => ([], finishParse config env)
  | arg :: rest, config, env =>
    if arg = FLAGS_HELP ∨ arg = FLAGS_HELP_SHORT then
      ([], .error .helpExit)
    else if arg = FLAGS_PLUGINS_ROOT ∨ arg = FLAGS_PLUGINS_ROOT_WDP ∨
        arg = FLAGS_PLUGINS_ROOT_WZ_HOME then
      match rest with
      | [] => ([], .error (.validation (msgFlagRequiresAbsolutePath FLAGS_PLUGINS_ROOT)))
      | path :: rest2 =>
        if strStartsWith path "/" = false then
          ([], .error (.validation (msgFlagRequiresAbsolutePath FLAGS_PLUGINS_ROOT)))
        else
          let c2 := { config with pluginsRoot := stripTrailingSlash path }
          match ensureAccessibleHostPath c2.pluginsRoot "Base path" env with
          | .error e => ([], .error e)
          | .ok _ => parseLoop rest2 c2 env
    else if arg = FLAGS_OS_VERSION then
      match rest with
      | [] => ([], .error (.validation (msgFlagRequiresValue FLAGS_OS_VERSION "2.11.0")))
      | v :: rest2 =>
        if v = "" ∨ strStartsWith v "-" = true then
          ([], .error (.validation (msgFlagRequiresValue FLAGS_OS_VERSION "2.11.0")))
        else parseLoop rest2 { config with osVersion := v } env
    else if arg = FLAGS_OSD_VERSION then
      match rest with
      | [] => ([], .error (.validation (msgFlagRequiresValue FLAGS_OSD_VERSION "2.11.0")))
      | v :: rest2 =>
        if v = "" ∨ strStartsWith v "-" = true then
          ([], .error (.validation (msgFlagRequiresValue FLAGS_OSD_VERSION "2.11.0")))
        else parseLoop rest2 { config with osdVersion := v } env
    else if arg = FLAGS_AGENTS_UP then
      match rest with
      | [] =>
        -- `argv[++index]` is `undefined`: the membership test on the
        -- recorded value fails and the flag-specific error is raised.
        ([], .error (.validation (msgInvalidAgentsUp FLAGS_AGENTS_UP)))
      | v :: rest2 =>
        let v2 := if v = "none" ∨ v = "0" then "without" else v
        let c2 := { config with agentsUp := v2 }
        if v2 = "rpm" ∨ v2 = "deb" ∨ v2 = "without" ∨ v2 = "" then
          parseLoop rest2 c2 env
        else ([], .error (.validation (msgInvalidAgentsUp FLAGS_AGENTS_UP)))
    else if arg = FLAGS_SAML then
      parseLoop rest { config with enableSaml := true } env
    else if arg = FLAGS_SERVER then
      match rest with
      | [] => ([], .error (.validation msgServerFlagRequiresValue))
      | v :: rest2 =>
        if v = "" ∨ strStartsWith v "-" = true then
          ([], .error (.validation msgServerFlagRequiresValue))
        else parseLoop rest2 { config with serverFlagVersion := v } env
    else if arg = FLAGS_SERVER_LOCAL then
      match rest with
      | [] => ([], .error (.validation msgServerLocalFlagRequiresValue))
      | v :: rest2 =>
        if v = "" ∨ strStartsWith v "-" = true then
          ([], .error (.validation msgServerLocalFlagRequiresValue))
        else parseLoop rest2 { config with serverLocalFlagVersion := v } env
    else if arg = FLAGS_REPO then
      match rest with
      | [] =>
        -- `repoSpec` is `undefined` and `repoSpec.includes('=')` raises a
        -- JavaScript TypeError.
        ([], .error (.crash "TypeError: repoSpec is undefined"))
      | repoSpec :: rest2 =>
        if strContainsChar repoSpec '=' then
          match splitOnChar '=' repoSpec.data with
          | n :: p :: _ =>
            let repoName := String.mk n
            let repoPath := String.mk p
            if repoName = "" ∨ repoPath = "" then
              ([], .error (.validation (msgInvalidRepoSpec repoSpec)))
            else if strContainsSubstr repoPath "/plugins/" then
              ([], .error (.validation (msgInvalidRepoSubfolder repoName repoPath)))
            else
              parseLoop rest2
                { config with userRepositories :=
                    config.userRepositories ++ [⟨repoName, repoPath⟩] } env
          | _ =>
            -- unreachable: a string containing '=' splits in two or more
            ([], .error (.validation (msgInvalidRepoSpec repoSpec)))
        else
          let siblingFolderName :=
            if repoSpec ∈ SECURITY_PLUGIN_ALIASES then SECURITY_PLUGIN_REPO_NAME
            else repoSpec
          if env.siblingRepoHostRoot = "" then
            ([], .error (.validation (msgCannotResolveRepositoryUnderCommonParent
              repoSpec FLAGS_REPO "SIBLING_REPO_HOST_ROOT")))
          else
            let inferredHostPath :=
              stripTrailingSlash (pathResolve env.siblingRepoHostRoot siblingFolderName)
            match ensureAccessibleHostPath inferredHostPath
                ("Repository path for '" ++ repoSpec ++ "'") env with
            | .error e => ([], .error e)
            | .ok _ =>
              parseLoop rest2
                { config with userRepositories :=
                    config.userRepositories ++ [⟨repoSpec, inferredHostPath⟩] } env
    else if arg = FLAGS_BASE then
      let c2 := { config with useDashboardFromSource := true }
      match rest with
      | [] => parseLoop [] c2 env
      | t :: rest2 =>
        if strStartsWith t "/" = true then
          let basePath := stripTrailingSlash t
          match ensureAccessibleHostPath basePath "Dashboard base path" env with
          | .error e => ([], .error e)
          | .ok _ => parseLoop rest2 { c2 with dashboardBase := basePath } env
        else if t ≠ "" ∧ strStartsWith t "-" = false ∧ t ∉ ACTIONS_LIST then
          -- relative token consumed and ignored for backward compatibility
          parseLoop rest2 c2 env
        else
          parseLoop (t :: rest2) c2 env
    else if arg = FLAGS_INDEXER_LOCAL then
      let c2 := { config with useIndexerFromPackage := true }
      match rest with
      | [] => parseLoop [] c2 env
      | t :: rest2 =>
        if t ≠ "" then
          -- process.env.IMAGE_INDEXER_PACKAGE_TAG = nextArg, at scan time
          let r := parseLoop rest2 c2 env
          (("IMAGE_INDEXER_PACKAGE_TAG", t) :: r.1, r.2)
        else
          parseLoop (t :: rest2) c2 env
    else if strStartsWith arg "-" = true then
      ([], .error (.validation (msgUnsupportedOption arg)))
    else if arg ∈ ACTIONS_LIST then
      if config.action ≠ "" then
        ([], .error (.validation (msgActionProvidedMultiple config.action arg)))
      else parseLoop rest { config with action := arg } env
    else
      ([], .error (.validation (msgPositionalArgsNotAllowed arg)))

/-- `parseArguments` of `services/repoResolver.ts`: scans argv into a
`Config`, pairing the outcome with the `process.env` writes performed. -/
def parseArguments (argv : List String) (envPaths : EnvironmentPaths) :
    List (String × String) × Except ScriptError Config :=
  parseLoop argv defaultConfig envPaths

/-! ## Test environments used by witnesses and counterexamples -/

/-- An ambient environment with nothing set and an empty filesystem. -/
def env0 : EnvironmentPaths := {}

/-- An ambient environment whose identity mount makes every host path
container-visible and whose filesystem reports every path as existing. -/
def envAllOk : EnvironmentPaths :=
  { mounts := [("", "")], fsExists := fun _ => true }

/-! ## Helper lemmas about the scan loop -/

/-- One scan step of `parseLoop` either stops with an error (writing
nothing), continues on a shorter suffix, or performs the indexer-tag write
and continues. -/
lemma parseLoop_cons_cases (arg : String) (rest : List String) (cfg : Config)
    (env : EnvironmentPaths) :
    (∃ e, parseLoop (arg :: rest) cfg env = ([], .error e)) ∨
    (∃ rest2 cfg2, rest2.length ≤ rest.length ∧
      parseLoop (arg :: rest) cfg env = parseLoop rest2 cfg2 env) ∨
    (∃ t rest2 cfg2, rest = t :: rest2 ∧
      parseLoop (arg :: rest) cfg env =
        (("IMAGE_INDEXER_PACKAGE_TAG", t) :: (parseLoop rest2 cfg2 env).1,
         (parseLoop rest2 cfg2 env).2)) := by
  cases rest with
  | nil =>
    have h := parseLoop.eq_2 cfg env arg
    by_cases h1 : arg = FLAGS_HELP ∨ arg = FLAGS_HELP_SHORT
    · rw [if_pos h1] at h; exact Or.inl ⟨_, h⟩
    rw [if_neg h1] at h
    by_cases h2 : arg = FLAGS_PLUGINS_ROOT ∨ arg = FLAGS_PLUGINS_ROOT_WDP ∨
        arg = FLAGS_PLUGINS_ROOT_WZ_HOME
    · rw [if_pos h2] at h; exact Or.inl ⟨_, h⟩
    rw [if_neg h2] at h
    by_cases h3 : arg = FLAGS_OS_VERSION
    · rw [if_pos h3] at h; exact Or.inl ⟨_, h⟩
    rw [if_neg h3] at h
    by_cases h4 : arg = FLAGS_OSD_VERSION
    · rw [if_pos h4] at h; exact Or.inl ⟨_, h⟩
    rw [if_neg h4] at h
    by_cases h5 : arg = FLAGS_AGENTS_UP
    · rw [if_pos h5] at h; exact Or.inl ⟨_, h⟩
    rw [if_neg h5] at h
    by_cases h6 : arg = FLAGS_SAML
    · rw [if_pos h6] at h; exact Or.inr (Or.inl ⟨[], _, le_rfl, h⟩)
    rw [if_neg h6] at h
    by_cases h7 : arg = FLAGS_SERVER
    · rw [if_pos h7] at h; exact Or.inl ⟨_, h⟩
    rw [if_neg h7] at h
    by_cases h8 : arg = FLAGS_SERVER_LOCAL
    · rw [if_pos h8] at h; exact Or.inl ⟨_, h⟩
    rw [if_neg h8] at h
    by_cases h9 : arg = FLAGS_REPO
    · rw [if_pos h9] at h; exact Or.inl ⟨_, h⟩
    rw [if_neg h9] at h
    by_cases h10 : arg = FLAGS_BASE
    · rw [if_pos h10] at h; exact Or.inr (Or.inl ⟨[], _, le_rfl, h⟩)
    rw [if_neg h10] at h
    by_cases h11 : arg = FLAGS_INDEXER_LOCAL
    · rw [if_pos h11] at h; exact Or.inr (Or.inl ⟨[], _, le_rfl, h⟩)
    rw [if_neg h11] at h
    by_cases h12 : strStartsWith arg "-" = true
    · rw [if_pos h12] at h; exact Or.inl ⟨_, h⟩
    rw [if_neg h12] at h
    by_cases h13 : arg ∈ ACTIONS_LIST
    · rw [if_pos h13] at h
      by_cases h14 : cfg.action ≠ ""
      · rw [if_pos h14] at h; exact Or.inl ⟨_, h⟩
      · rw [if_neg h14] at h; exact Or.inr (Or.inl ⟨[], _, le_rfl, h⟩)
    · rw [if_neg h13] at h; exact Or.inl ⟨_, h⟩
  | cons b bs =>
    have h := parseLoop.eq_3 cfg env arg b bs
    dsimp only at h
    by_cases h1 : arg = FLAGS_HELP ∨ arg = FLAGS_HELP_SHORT
    · rw [if_pos h1] at h; exact Or.inl ⟨_, h⟩
    rw [if_neg h1] at h
    by_cases h2 : arg = FLAGS_PLUGINS_ROOT ∨ arg = FLAGS_PLUGINS_ROOT_WDP ∨
        arg = FLAGS_PLUGINS_ROOT_WZ_HOME
    · rw [if_pos h2] at h
      by_cases hp : strStartsWith b "/" = false
      · rw [if_pos hp] at h; exact Or.inl ⟨_, h⟩
      rw [if_neg hp] at h
      cases hacc : ensureAccessibleHostPath (stripTrailingSlash b)
          "Base path" env with
      | error e => rw [hacc] at h; exact Or.inl ⟨_, h⟩
      | ok u => rw [hacc] at h; exact Or.inr (Or.inl ⟨bs, _, by simp, h⟩)
    rw [if_neg h2] at h
    by_cases h3 : arg = FLAGS_OS_VERSION
    · rw [if_pos h3] at h
      by_cases hv : b = "" ∨ strStartsWith b "-" = true
      · rw [if_pos hv] at h; exact Or.inl ⟨_, h⟩
      · rw [if_neg hv] at h; exact Or.inr (Or.inl ⟨bs, _, by simp, h⟩)
    rw [if_neg h3] at h
    by_cases h4 : arg = FLAGS_OSD_VERSION
    · rw [if_pos h4] at h
      by_cases hv : b = "" ∨ strStartsWith b "-" = true
      · rw [if_pos hv] at h; exact Or.inl ⟨_, h⟩
      · rw [if_neg hv] at h; exact Or.inr (Or.inl ⟨bs, _, by simp, h⟩)
    rw [if_neg h4] at h
    by_cases h5 : arg = FLAGS_AGENTS_UP
    · rw [if_pos h5] at h
      by_cases hm : (if b = "none" ∨ b = "0" then "without" else b) = "rpm" ∨
          (if b = "none" ∨ b = "0" then "without" else b) = "deb" ∨
          (if b = "none" ∨ b = "0" then "without" else b) = "without" ∨
          (if b = "none" ∨ b = "0" then "without" else b) = ""
      · rw [if_pos hm] at h; exact Or.inr (Or.inl ⟨bs, _, by simp, h⟩)
      · rw [if_neg hm] at h; exact Or.inl ⟨_, h⟩
    rw [if_neg h5] at h
    by_cases h6 : arg = FLAGS_SAML
    · rw [if_pos h6] at h; exact Or.inr (Or.inl ⟨b :: bs, _, le_rfl, h⟩)
    rw [if_neg h6] at h
    by_cases h7 : arg = FLAGS_SERVER
    · rw [if_pos h7] at h
      by_cases hv : b = "" ∨ strStartsWith b "-" = true
      · rw [if_pos hv] at h; exact Or.inl ⟨_, h⟩
      · rw [if_neg hv] at h; exact Or.inr (Or.inl ⟨bs, _, by simp, h⟩)
    rw [if_neg h7] at h
    by_cases h8 : arg = FLAGS_SERVER_LOCAL
    · rw [if_pos h8] at h
      by_cases hv : b = "" ∨ strStartsWith b "-" = true
      · rw [if_pos hv] at h; exact Or.inl ⟨_, h⟩
      · rw [if_neg hv] at h; exact Or.inr (Or.inl ⟨bs, _, by simp, h⟩)
    rw [if_neg h8] at h
    by_cases h9 : arg = FLAGS_REPO
    · rw [if_pos h9] at h
      by_cases hc : strContainsChar b '=' = true
      · rw [if_pos hc] at h
        rcases hsp : splitOnChar '=' b.data with _ | ⟨n, _ | ⟨p, tail⟩⟩
        · rw [hsp] at h; exact Or.inl ⟨_, h⟩
        · rw [hsp] at h; exact Or.inl ⟨_, h⟩
        · rw [hsp] at h
          dsimp only at h
          by_cases hnp : String.mk n = "" ∨ String.mk p = ""
          · rw [if_pos hnp] at h; exact Or.inl ⟨_, h⟩
          rw [if_neg hnp] at h
          by_cases hsub : strContainsSubstr (String.mk p) "/plugins/" = true
          · rw [if_pos hsub] at h; exact Or.inl ⟨_, h⟩
          · rw [if_neg hsub] at h; exact Or.inr (Or.inl ⟨bs, _, by simp, h⟩)
      · rw [if_neg hc] at h
        by_cases hsib : env.siblingRepoHostRoot = ""
        · rw [if_pos hsib] at h; exact Or.inl ⟨_, h⟩
        rw [if_neg hsib] at h
        cases hacc : ensureAccessibleHostPath
            (stripTrailingSlash (pathResolve env.siblingRepoHostRoot
              (if b ∈ SECURITY_PLUGIN_ALIASES then SECURITY_PLUGIN_REPO_NAME else b)))
            ("Repository path for '" ++ b ++ "'") env with
        | error e => rw [hacc] at h; exact Or.inl ⟨_, h⟩
        | ok u => rw [hacc] at h; exact Or.inr (Or.inl ⟨bs, _, by simp, h⟩)
    rw [if_neg h9] at h
    by_cases h10 : arg = FLAGS_BASE
    · rw [if_pos h10] at h
      by_cases hb1 : strStartsWith b "/" = true
      · rw [if_pos hb1] at h
        cases hacc : ensureAccessibleHostPath (stripTrailingSlash b)
            "Dashboard base path" env with
        | error e => rw [hacc] at h; exact Or.inl ⟨_, h⟩
        | ok u => rw [hacc] at h; exact Or.inr (Or.inl ⟨bs, _, by simp, h⟩)
      rw [if_neg hb1] at h
      by_cases hb2 : b ≠ "" ∧ strStartsWith b "-" = false ∧ b ∉ ACTIONS_LIST
      · rw [if_pos hb2] at h; exact Or.inr (Or.inl ⟨bs, _, by simp, h⟩)
      · rw [if_neg hb2] at h; exact Or.inr (Or.inl ⟨b :: bs, _, le_rfl, h⟩)
    rw [if_neg h10] at h
    by_cases h11 : arg = FLAGS_INDEXER_LOCAL
    · rw [if_pos h11] at h
      by_cases hi : b ≠ ""
      · rw [if_pos hi] at h; exact Or.inr (Or.inr ⟨b, bs, _, rfl, h⟩)
      · rw [if_neg hi] at h; exact Or.inr (Or.inl ⟨b :: bs, _, le_rfl, h⟩)
    rw [if_neg h11] at h
    by_cases h12 : strStartsWith arg "-" = true
    · rw [if_pos h12] at h; exact Or.inl ⟨_, h⟩
    rw [if_neg h12] at h
    by_cases h13 : arg ∈ ACTIONS_LIST
    · rw [if_pos h13] at h
      by_cases h14 : cfg.action ≠ ""
      · rw [if_pos h14] at h; exact Or.inl ⟨_, h⟩
      · rw [if_neg h14] at h; exact Or.inr (Or.inl ⟨b :: bs, _, le_rfl, h⟩)
    · rw [if_neg h13] at h; exact Or.inl ⟨_, h⟩

/-- Every entry of the writes list produced by the scan is the
indexer-package tag variable (strong induction on the argv length). -/
lemma parseLoop_writes_tag (n : Nat) : ∀ args : List String, args.length ≤ n →
    ∀ (cfg : Config) (env : EnvironmentPaths) (kv : String × String),
    kv ∈ (parseLoop args cfg env).1 → kv.1 = "IMAGE_INDEXER_PACKAGE_TAG" := by
  induction n with
  | zero =>
    intro args hlen cfg env kv hkv
    rw [List.length_eq_zero.mp (Nat.le_zero.mp hlen)] at hkv
    simp [parseLoop] at hkv
  | succ n ih =>
    intro args hlen cfg env kv hkv
    cases args with
    | nil => simp [parseLoop] at hkv
    | cons arg rest =>
      rcases parseLoop_cons_cases arg rest cfg env with
        ⟨e, he⟩ | ⟨rest2, cfg2, hle, he⟩ | ⟨t, rest2, cfg2, heq, he⟩
      · rw [he] at hkv; simp at hkv
      · rw [he] at hkv
        refine ih rest2 ?_ cfg2 env kv hkv
        simp only [List.length_cons] at hlen
        omega
      · rw [he] at hkv
        rcases List.mem_cons.mp hkv with rfl | hkv2
        · rfl
        · refine ih rest2 ?_ cfg2 env kv hkv2
          subst heq
          simp only [List.length_cons] at hlen
          omega

/-- A successful scan outcome is always a `finishParse` outcome for some
accumulated configuration (strong induction on the argv length). -/
lemma parseLoop_ok_finishParse (n : Nat) : ∀ args : List String, args.length ≤ n →
    ∀ (cfg : Config) (env : EnvironmentPaths) (c : Config),
    (parseLoop args cfg env).2 = .ok c → ∃ cfg2, finishParse cfg2 env = .ok c := by
  induction n with
  | zero =>
    intro args hlen cfg env c hc
    rw [List.length_eq_zero.mp (Nat.le_zero.mp hlen)] at hc
    exact ⟨cfg, hc⟩
  | succ n ih =>
    intro args hlen cfg env c hc
    cases args with
    | nil => exact ⟨cfg, hc⟩
    | cons arg rest =>
      rcases parseLoop_cons_cases arg rest cfg env with
        ⟨e, he⟩ | ⟨rest2, cfg2, hle, he⟩ | ⟨t, rest2, cfg2, heq, he⟩
      · rw [he] at hc; cases hc
      · rw [he] at hc
        refine ih rest2 ?_ cfg2 env c hc
        simp only [List.length_cons] at hlen
        omega
      · rw [he] at hc
        refine ih rest2 ?_ cfg2 env c hc
        subst heq
        simp only [List.length_cons] at hlen
        omega

/-- `applyModeFlags` never touches the two raw server-flag fields. -/
lemma applyModeFlags_server_fields (cfg : Config) :
    (applyModeFlags cfg).serverFlagVersion = cfg.serverFlagVersion ∧
    (applyModeFlags cfg).serverLocalFlagVersion = cfg.serverLocalFlagVersion := by
  unfold applyModeFlags
  split_ifs <;> simp

/-- A configuration accepted by the post-scan phase never carries both
server flags. -/
lemma finishParse_ok_server_flags (cfg : Config) (env : EnvironmentPaths)
    (c : Config) (h : finishParse cfg env = .ok c) :
    c.serverFlagVersion = "" ∨ c.serverLocalFlagVersion = "" := by
  unfold finishParse at h
  dsimp only at h
  cases h1 : resolveDashboardBase cfg env with
  | error e => simp only [h1] at h; cases h
  | ok c1 =>
    simp only [h1] at h
    cases h2 : checkDashboardBase c1 env with
    | error e => simp only [h2] at h; cases h
    | ok u =>
      simp only [h2] at h
      cases h3 : checkPluginsRoot (defaultPluginsRoot c1 env) env with
      | error e => simp only [h3] at h; cases h
      | ok u2 =>
        simp only [h3] at h
        by_cases hboth : (defaultPluginsRoot c1 env).serverFlagVersion ≠ "" ∧
            (defaultPluginsRoot c1 env).serverLocalFlagVersion ≠ ""
        · rw [if_pos hboth] at h; cases h
        · rw [if_neg hboth] at h
          injection h with hc
          subst hc
          rcases applyModeFlags_server_fields (defaultPluginsRoot c1 env) with ⟨hs1, hs2⟩
          rw [hs1, hs2]
          by_cases hx : (defaultPluginsRoot c1 env).serverFlagVersion = ""
          · exact Or.inl hx
          · refine Or.inr ?_
            by_contra hy
            exact hboth ⟨hx, hy⟩


/-- Spec-worded candidate list of the fallback search, following the
claim's sentence: candidate bases in the order pluginsRoot (if set),
currentRepoHostRoot, then the two sibling folders (if a sibling root is
set); under each base the three sub-paths base/plugins/name, base/name,
base, in that order. -/
def specCandidateSubPaths (repoName : String) (config : Config)
    (env : EnvironmentPaths) : List String :=
  ((((if config.pluginsRoot ≠ "" then [config.pluginsRoot] else []) ++
      [env.currentRepoHostRoot] ++
      (if env.siblingRepoHostRoot ≠ "" then
        [pathResolve env.siblingRepoHostRoot "wazuh-dashboard-plugins",
         pathResolve env.siblingRepoHostRoot "wazuh-dashboard"]
       else [])).map stripTrailingSlash).filter (fun b => !(b == ""))).map
    (fun b => [b ++ "/plugins/" ++ repoName, b ++ "/" ++ repoName, b]) |>.flatten

/-- Spec-worded: the first sub-path of the whole ordered search that is
reachable from inside the container and has a package manifest directly
under it. -/
def specFirstAcceptedSubPath (repoName : String) (config : Config)
    (env : EnvironmentPaths) : Option String :=
  (specCandidateSubPaths repoName config env).find? (acceptCandidate env)

/-- The nested base-by-base search equals the first accepted entry of the
flattened probe list. -/
lemma searchBases_eq_flat (repoName : String) (env : EnvironmentPaths) :
    ∀ bases : List String,
    searchBases repoName env bases =
      (((bases.filter (fun b => !(b == ""))).map
        (fun b => probesFor b repoName)).flatten).find? (acceptCandidate env) := by
  intro bases
  induction bases with
  | nil => rfl
  | cons b bs ih =>
    by_cases hb : b = ""
    · rw [searchBases, if_pos hb]
      rw [List.filter_cons_of_neg (by simp [hb])]
      exact ih
    · rw [searchBases, if_neg hb]
      rw [List.filter_cons_of_pos (by simp [hb])]
      rw [List.map_cons, List.flatten_cons, List.find?_append, ih]
      cases hf : (probesFor b repoName).find? (acceptCandidate env) with
      | none => simp [hf, Option.or]
      | some c => simp [hf, Option.or]

/-- C3: for a repository with no usable explicit override,
`resolveRepositoryHostPath` fails with `ConfigurationError` when the
current-repo host root is unset; otherwise it scans the ordered candidate
bases (pluginsRoot if set, currentRepoHostRoot, then the two sibling
folders if a sibling root is set), probing base/plugins/name, base/name,
base under each, accepting the first sub-path that is container-reachable
with a package manifest directly under it and stopping there; when nothing
is accepted it fails with `ValidationError`. -/
theorem claim_C3 : ∀ (repoName : String) (cfg : Config) (env : EnvironmentPaths),
    overrideHostPath repoName cfg = "" →
    (env.currentRepoHostRoot = "" →
      resolveRepositoryHostPath repoName cfg env =
        .error (.configuration (msgEnvNotSet "CURRENT_REPO_HOST_ROOT"))) ∧
    (env.currentRepoHostRoot ≠ "" →
      specFirstAcceptedSubPath repoName cfg env = none →
      resolveRepositoryHostPath repoName cfg env =
        .error (.validation (msgRepoPathNotProvided repoName))) ∧
    (∀ c : String, env.currentRepoHostRoot ≠ "" →
      specFirstAcceptedSubPath repoName cfg env = some c →
      resolveRepositoryHostPath repoName cfg env =
        match ensureAccessibleHostPath c
            ("Repository path for '" ++ repoName ++ "'") env with
        | .error e => .error e
        | .ok _ => .ok (stripTrailingSlash c)) := by
  intro repoName cfg env hov
  have hflat : searchBases repoName env (candidateBases cfg env) =
      specFirstAcceptedSubPath repoName cfg env :=
    searchBases_eq_flat repoName env (candidateBases cfg env)
  refine ⟨?_, ?_, ?_⟩
  · intro hcur
    rw [resolveRepositoryHostPath]
    rw [hov]
    rw [if_neg (by simp), if_pos hcur]
  · intro hcur hnone
    rw [resolveRepositoryHostPath]
    rw [hov]
    rw [if_neg (by simp), if_neg hcur, hflat, hnone]
  · intro c hcur hsome
    rw [resolveRepositoryHostPath]
    rw [hov]
    rw [if_neg (by simp), if_neg hcur, hflat, hsome]

/-- Ambient environment of the C3 witness: a current-repo root, an
identity mount and an all-true filesystem. -/
def envC3w : EnvironmentPaths :=
  { currentRepoHostRoot := "/host", mounts := [("", "")], fsExists := fun _ => true }

/-- C3 witness: under `envC3w` the search accepts the first probe
`/host/plugins/wz`. -/
theorem claim_C3_witness :
    resolveRepositoryHostPath "wz" defaultConfig envC3w = .ok "/host/plugins/wz" :=
  ((claim_C3 "wz" defaultConfig envC3w rfl).2.2 "/host/plugins/wz"
    (by decide) rfl).trans rfl

/-- The empty initial mode environment used by configurator witnesses. -/
def modeEnv0 : ModeEnv := {}

/-- C4: with mode `server` and a non-empty version,
`configureModeAndSecurity` returns the server profile and exports the
version as the stack marker; with an empty version it raises
`ValidationError`. -/
theorem claim_C4 : ∀ (cfg : Config) (e : ModeEnv), cfg.mode = PROFILES_SERVER →
    (cfg.modeVersion ≠ "" →
      (configureModeAndSecurity cfg e).map (fun r => (r.1, r.2.wazuhStack)) =
        .ok (PROFILES_SERVER, cfg.modeVersion)) ∧
    (cfg.modeVersion = "" →
      configureModeAndSecurity cfg e =
        .error (.validation MSG_SERVER_MODE_REQUIRES_VERSION)) := by
  intro cfg e hm
  have h1 : strStartsWith PROFILES_SERVER (PROFILES_SERVER_LOCAL ++ "-") = false := by
    decide
  constructor
  · intro hv
    simp [configureModeAndSecurity, hm, h1, hv, Except.map]
  · intro hv
    simp [configureModeAndSecurity, hm, h1, hv]

/-- Configuration of the C4 witness. -/
def cfgC4w : Config := { mode := PROFILES_SERVER, modeVersion := "4.12.0" }

/-- C4 witness at mode `server`, version `4.12.0`. -/
theorem claim_C4_witness :
    (configureModeAndSecurity cfgC4w modeEnv0).map (fun r => (r.1, r.2.wazuhStack)) =
      .ok (PROFILES_SERVER, "4.12.0") :=
  (claim_C4 cfgC4w modeEnv0 rfl).1 (by decide)

/-- C5: every composite `server-local-...` mode token is rejected with
`ValidationError`; mode `server-local` requires a non-empty version (else
`ValidationError`), exports it as the image tag, and appends the agents-up
suffix to the returned mode string when agents-up is set. -/
theorem claim_C5 : ∀ (cfg : Config) (e : ModeEnv),
    (strStartsWith cfg.mode (PROFILES_SERVER_LOCAL ++ "-") = true →
      configureModeAndSecurity cfg e =
        .error (.validation msgUnsupportedModeToken)) ∧
    (cfg.mode = PROFILES_SERVER_LOCAL →
      (cfg.modeVersion = "" →
        configureModeAndSecurity cfg e =
          .error (.validation MSG_SERVER_LOCAL_MODE_REQUIRES_VERSION)) ∧
      (cfg.modeVersion ≠ "" →
        (configureModeAndSecurity cfg e).map (fun r => (r.1, r.2.imageTag)) =
          .ok ((if cfg.agentsUp ≠ "" then
                  PROFILES_SERVER_LOCAL ++ "-" ++ cfg.agentsUp
                else PROFILES_SERVER_LOCAL), cfg.modeVersion))) := by
  intro cfg e
  constructor
  · intro hsw
    simp [configureModeAndSecurity, hsw]
  · intro hm
    have h1 : strStartsWith PROFILES_SERVER_LOCAL (PROFILES_SERVER_LOCAL ++ "-") = false := by
      decide
    have h2 : PROFILES_SERVER_LOCAL ≠ PROFILES_SERVER := by decide
    constructor
    · intro hv
      simp [configureModeAndSecurity, hm, h1, h2, hv]
    · intro hv
      simp [configureModeAndSecurity, hm, h1, h2, hv, Except.map]

/-- Configuration of the first C5 witness: a raw composite mode token. -/
def cfgC5a : Config := { mode := "server-local-rpm" }

/-- Configuration of the second C5 witness: mode `server-local` with a
tag and agents-up `rpm`. -/
def cfgC5b : Config :=
  { mode := PROFILES_SERVER_LOCAL, modeVersion := "tag1", agentsUp := "rpm" }

/-- C5 witness: the composite token is rejected; the legitimate
server-local request returns the suffixed profile and exports the tag. -/
theorem claim_C5_witness :
    configureModeAndSecurity cfgC5a modeEnv0 =
      .error (.validation msgUnsupportedModeToken) ∧
    (configureModeAndSecurity cfgC5b modeEnv0).map (fun r => (r.1, r.2.imageTag)) =
      .ok ("server-local-rpm", "tag1") :=
  ⟨(claim_C5 cfgC5a modeEnv0).1 (by decide),
   (((claim_C5 cfgC5b modeEnv0).2 rfl).2 (by decide)).trans rfl⟩

/-- C10: with SAML enabled and mode `server` (non-empty version), the
server profile is returned while the dashboard-config and security-config
environment variables hold the SAML-specific file variants, and the stack
marker holds the version. -/
theorem claim_C10 : ∀ (cfg : Config) (e : ModeEnv), cfg.enableSaml = true →
    cfg.mode = PROFILES_SERVER → cfg.modeVersion ≠ "" →
    (configureModeAndSecurity cfg e).map
        (fun r => (r.1, r.2.wazuhDashboardConf, r.2.secConfigFile, r.2.wazuhStack)) =
      .ok (PROFILES_SERVER, "./config/2.x/osd/opensearch_dashboards_saml.yml",
           "./config/2.x/os/config-saml.yml", cfg.modeVersion) := by
  intro cfg e hsaml hm hv
  have h1 : strStartsWith PROFILES_SERVER (PROFILES_SERVER_LOCAL ++ "-") = false := by
    decide
  simp [configureModeAndSecurity, hsaml, hm, h1, hv, Except.map, OSD_MAJOR_2X]

/-- Configuration of the C10 witness. -/
def cfgC10w : Config :=
  { mode := PROFILES_SERVER, modeVersion := "4.12.0", enableSaml := true }

/-- C10 witness at SAML plus server mode. -/
theorem claim_C10_witness :
    (configureModeAndSecurity cfgC10w modeEnv0).map
        (fun r => (r.1, r.2.wazuhDashboardConf, r.2.secConfigFile, r.2.wazuhStack)) =
      .ok (PROFILES_SERVER, "./config/2.x/osd/opensearch_dashboards_saml.yml",
           "./config/2.x/os/config-saml.yml", "4.12.0") :=
  claim_C10 cfgC10w modeEnv0 rfl rfl (by decide)

/-- Candidate-base construction ignores the override list. -/
lemma candidateBases_userRepositories (cfg : Config) (env : EnvironmentPaths)
    (l : List RepoOverride) :
    candidateBases { cfg with userRepositories := l } env = candidateBases cfg env := rfl

/-- C2 amended: when several overrides share the repository name, the
FIRST-listed entry decides the resolution (`Array.find`), so the whole
call equals the call with only that first entry present. -/
theorem claim_C2_amended : ∀ (repoName p1 p2 : String) (rest : List RepoOverride)
    (cfg : Config) (env : EnvironmentPaths),
    resolveRepositoryHostPath repoName
      { cfg with userRepositories := ⟨repoName, p1⟩ :: ⟨repoName, p2⟩ :: rest } env =
    resolveRepositoryHostPath repoName
      { cfg with userRepositories := [⟨repoName, p1⟩] } env := by
  intro repoName p1 p2 rest cfg env
  have hov : overrideHostPath repoName
      { cfg with userRepositories := ⟨repoName, p1⟩ :: ⟨repoName, p2⟩ :: rest } =
      overrideHostPath repoName { cfg with userRepositories := [⟨repoName, p1⟩] } := by
    unfold overrideHostPath
    rw [List.find?_cons_of_pos _ (by simp), List.find?_cons_of_pos _ (by simp)]
  rw [resolveRepositoryHostPath, resolveRepositoryHostPath, hov]
  simp only [candidateBases_userRepositories]

/-- Configuration of the C2 counterexample: two overrides named `a`. -/
def cfgC2x : Config :=
  { userRepositories := [⟨"a", "/p1"⟩, ⟨"a", "/p2"⟩] }

/-- C2 counterexample: with two overrides for `a`, resolution takes the
FIRST-listed path `/p1`, not the last-listed `/p2` the claim requires. -/
theorem claim_C2_counterexample :
    resolveRepositoryHostPath "a" cfgC2x envAllOk = .ok "/p1" ∧
    (("/p1" : String) == "/p2") = false := ⟨rfl, rfl⟩

/-- C1 amended: `parseArguments` never returns a configuration carrying
both server flags; and when both flags are scanned and the post-scan path
steps are trivial (no current-repo root to check), the failure is exactly
the cannot-combine `ValidationError`. -/
theorem claim_C1_amended :
    (∀ (argv : List String) (env : EnvironmentPaths) (c : Config),
      (parseArguments argv env).2 = .ok c →
      c.serverFlagVersion = "" ∨ c.serverLocalFlagVersion = "") ∧
    (∀ env : EnvironmentPaths, env.currentRepoHostRoot = "" →
      (parseArguments [FLAGS_SERVER, "1.0", FLAGS_SERVER_LOCAL, "t"] env).2 =
        .error (.validation msgCannotCombineServerFlags)) := by
  constructor
  · intro argv env c hc
    obtain ⟨cfg2, h2⟩ :=
      parseLoop_ok_finishParse argv.length argv le_rfl defaultConfig env c hc
    exact finishParse_ok_server_flags cfg2 env c h2
  · intro env hcur
    simp [parseArguments, parseLoop, FLAGS_SERVER, FLAGS_SERVER_LOCAL, FLAGS_HELP,
      FLAGS_HELP_SHORT, FLAGS_PLUGINS_ROOT, FLAGS_PLUGINS_ROOT_WDP,
      FLAGS_PLUGINS_ROOT_WZ_HOME, FLAGS_OS_VERSION, FLAGS_OSD_VERSION,
      FLAGS_AGENTS_UP, FLAGS_SAML, FLAGS_REPO, FLAGS_BASE, FLAGS_INDEXER_LOCAL,
      finishParse, resolveDashboardBase, checkDashboardBase, defaultPluginsRoot,
      checkPluginsRoot, defaultConfig, hcur, strStartsWith]

/-- The configuration produced by parsing the single action token `up`. -/
def cfgC1ok : Config :=
  match (parseArguments ["up"] env0).2 with
  | .ok c => c
  | .error _ => defaultConfig

/-- C1 amended witness: a successful parse satisfies the not-both
invariant, and the two-flag argv yields the cannot-combine error. -/
theorem claim_C1_amended_witness :
    (cfgC1ok.serverFlagVersion = "" ∨ cfgC1ok.serverLocalFlagVersion = "") ∧
    (parseArguments [FLAGS_SERVER, "1.0", FLAGS_SERVER_LOCAL, "t"] env0).2 =
      .error (.validation msgCannotCombineServerFlags) :=
  ⟨claim_C1_amended.1 ["up"] env0 cfgC1ok rfl, claim_C1_amended.2 env0 rfl⟩

/-- C1 counterexample: argv supplying both server flags with values plus
the base flag, in an environment with no sibling root, fails with
`ConfigurationError`, not `ValidationError` — refuting "regardless of any
other flags present". -/
theorem claim_C1_counterexample :
    (parseArguments [FLAGS_SERVER, "1.0", FLAGS_SERVER_LOCAL, "t", FLAGS_BASE] env0).2 =
      .error (.configuration msgCannotInferDashboardBase) := rfl

/-- The indexer-local flag consumes ANY non-empty following token as the
tag value: the write is performed and the scan continues after it. -/
lemma parseLoop_indexer_step (t : String) (rest : List String) (cfg : Config)
    (env : EnvironmentPaths) (ht : t ≠ "") :
    parseLoop (FLAGS_INDEXER_LOCAL :: t :: rest) cfg env =
      (("IMAGE_INDEXER_PACKAGE_TAG", t) ::
        (parseLoop rest { cfg with useIndexerFromPackage := true } env).1,
       (parseLoop rest { cfg with useIndexerFromPackage := true } env).2) := by
  have h := parseLoop.eq_3 cfg env FLAGS_INDEXER_LOCAL t rest
  dsimp only at h
  rw [if_neg (by decide), if_neg (by decide), if_neg (by decide), if_neg (by decide),
    if_neg (by decide), if_neg (by decide), if_neg (by decide), if_neg (by decide),
    if_neg (by decide), if_neg (by decide), if_pos rfl, if_pos ht] at h
  exact h

/-- The base flag consumes an absolute following token as the dashboard
base (after the accessibility check). -/
lemma parseLoop_base_step_abs (t : String) (rest : List String) (cfg : Config)
    (env : EnvironmentPaths) (ht : strStartsWith t "/" = true) :
    parseLoop (FLAGS_BASE :: t :: rest) cfg env =
      match ensureAccessibleHostPath (stripTrailingSlash t) "Dashboard base path" env with
      | .error e => ([], .error e)
      | .ok _ =>
        parseLoop rest
          { cfg with useDashboardFromSource := true,
                     dashboardBase := stripTrailingSlash t } env := by
  have h := parseLoop.eq_3 cfg env FLAGS_BASE t rest
  dsimp only at h
  rw [if_neg (by decide), if_neg (by decide), if_neg (by decide), if_neg (by decide),
    if_neg (by decide), if_neg (by decide), if_neg (by decide), if_neg (by decide),
    if_neg (by decide), if_pos rfl, if_pos ht] at h
  exact h

/-- A token after the base flag that looks like a flag, is a known action,
or is empty, is left in place to be processed normally. -/
lemma parseLoop_base_step_left (t : String) (rest : List String) (cfg : Config)
    (env : EnvironmentPaths) (hs : strStartsWith t "/" = false)
    (hor : strStartsWith t "-" = true ∨ t ∈ ACTIONS_LIST ∨ t = "") :
    parseLoop (FLAGS_BASE :: t :: rest) cfg env =
      parseLoop (t :: rest) { cfg with useDashboardFromSource := true } env := by
  have h := parseLoop.eq_3 cfg env FLAGS_BASE t rest
  dsimp only at h
  rw [if_neg (by decide), if_neg (by decide), if_neg (by decide), if_neg (by decide),
    if_neg (by decide), if_neg (by decide), if_neg (by decide), if_neg (by decide),
    if_neg (by decide), if_pos rfl, if_neg (by simp [hs]), if_neg ?hneg] at h
  case hneg =>
    rcases hor with h1 | h2 | h3
    · intro hcontra
      rw [h1] at hcontra
      exact Bool.noConfusion hcontra.2.1
    · intro hcontra
      exact hcontra.2.2 h2
    · intro hcontra
      exact hcontra.1 h3
  exact h

/-- A non-empty relative token after the base flag that is neither a flag
nor an action is consumed and ignored. -/
lemma parseLoop_base_step_skip (t : String) (rest : List String) (cfg : Config)
    (env : EnvironmentPaths) (hs : strStartsWith t "/" = false)
    (h1 : t ≠ "") (h2 : strStartsWith t "-" = false) (h3 : t ∉ ACTIONS_LIST) :
    parseLoop (FLAGS_BASE :: t :: rest) cfg env =
      parseLoop rest { cfg with useDashboardFromSource := true } env := by
  have h := parseLoop.eq_3 cfg env FLAGS_BASE t rest
  dsimp only at h
  rw [if_neg (by decide), if_neg (by decide), if_neg (by decide), if_neg (by decide),
    if_neg (by decide), if_neg (by decide), if_neg (by decide), if_neg (by decide),
    if_neg (by decide), if_pos rfl, if_neg (by simp [hs]), if_pos ⟨h1, h2, h3⟩] at h
  exact h

/-- C7 amended: after the base flag, an absolute token is consumed as the
value, a flag-like/action/empty token is left in place, and any other
token is consumed and ignored; after the indexer-local flag, ANY non-empty
following token — flag-like or not — is consumed and treated as the tag
value. -/
theorem claim_C7_amended :
    (∀ (t : String) (rest : List String) (cfg : Config) (env : EnvironmentPaths),
      strStartsWith t "/" = true →
      parseLoop (FLAGS_BASE :: t :: rest) cfg env =
        match ensureAccessibleHostPath (stripTrailingSlash t)
            "Dashboard base path" env with
        | .error e => ([], .error e)
        | .ok _ =>
          parseLoop rest
            { cfg with useDashboardFromSource := true,
                       dashboardBase := stripTrailingSlash t } env) ∧
    (∀ (t : String) (rest : List String) (cfg : Config) (env : EnvironmentPaths),
      strStartsWith t "/" = false →
      strStartsWith t "-" = true ∨ t ∈ ACTIONS_LIST ∨ t = "" →
      parseLoop (FLAGS_BASE :: t :: rest) cfg env =
        parseLoop (t :: rest) { cfg with useDashboardFromSource := true } env) ∧
    (∀ (t : String) (rest : List String) (cfg : Config) (env : EnvironmentPaths),
      strStartsWith t "/" = false → t ≠ "" → strStartsWith t "-" = false →
      t ∉ ACTIONS_LIST →
      parseLoop (FLAGS_BASE :: t :: rest) cfg env =
        parseLoop rest { cfg with useDashboardFromSource := true } env) ∧
    (∀ (t : String) (rest : List String) (cfg : Config) (env : EnvironmentPaths),
      t ≠ "" →
      parseLoop (FLAGS_INDEXER_LOCAL :: t :: rest) cfg env =
        (("IMAGE_INDEXER_PACKAGE_TAG", t) ::
          (parseLoop rest { cfg with useIndexerFromPackage := true } env).1,
         (parseLoop rest { cfg with useIndexerFromPackage := true } env).2)) :=
  ⟨fun t rest cfg env ht => parseLoop_base_step_abs t rest cfg env ht,
   fun t rest cfg env hs hor => parseLoop_base_step_left t rest cfg env hs hor,
   fun t rest cfg env hs h1 h2 h3 => parseLoop_base_step_skip t rest cfg env hs h1 h2 h3,
   fun t rest cfg env ht => parseLoop_indexer_step t rest cfg env ht⟩

/-- The configuration produced by the C7 counterexample parse. -/
def cfgC7x : Config := { useIndexerFromPackage := true }

/-- C7 counterexample: after the indexer-local flag, the flag-like token
`--saml` is NOT left to be processed normally — it is consumed as the tag
value, the parse succeeds, and SAML stays disabled. -/
theorem claim_C7_counterexample :
    parseArguments [FLAGS_INDEXER_LOCAL, FLAGS_SAML] env0 =
      ([("IMAGE_INDEXER_PACKAGE_TAG", "--saml")], .ok cfgC7x) ∧
    cfgC7x.enableSaml = false :=
  ⟨rfl, rfl⟩

/-- C7 amended witness: the base flag leaves a flag-like token in place;
the indexer-local flag consumes a non-empty token as the tag value. -/
theorem claim_C7_amended_witness :
    parseLoop [FLAGS_BASE, "--saml"] defaultConfig env0 =
      parseLoop ["--saml"] { defaultConfig with useDashboardFromSource := true } env0 ∧
    parseLoop [FLAGS_INDEXER_LOCAL, "tag1"] defaultConfig env0 =
      (("IMAGE_INDEXER_PACKAGE_TAG", "tag1") ::
        (parseLoop [] { defaultConfig with useIndexerFromPackage := true } env0).1,
       (parseLoop [] { defaultConfig with useIndexerFromPackage := true } env0).2) :=
  ⟨claim_C7_amended.2.1 "--saml" [] defaultConfig env0 (by decide) (Or.inl (by decide)),
   claim_C7_amended.2.2.2 "tag1" [] defaultConfig env0 (by decide)⟩

/-- C9: the scan's only process-environment writes are the
indexer-package tag; the write happens as soon as the flag and its
following token are scanned, for every continuation of the argv; and a
parse that later fails with `ValidationError` still returns the performed
write. -/
theorem claim_C9 :
    (∀ (argv : List String) (env : EnvironmentPaths) (kv : String × String),
      kv ∈ (parseArguments argv env).1 → kv.1 = "IMAGE_INDEXER_PACKAGE_TAG") ∧
    (∀ (env : EnvironmentPaths) (t : String) (rest : List String), t ≠ "" →
      ("IMAGE_INDEXER_PACKAGE_TAG", t) ∈
        (parseArguments (FLAGS_INDEXER_LOCAL :: t :: rest) env).1) ∧
    parseArguments [FLAGS_INDEXER_LOCAL, "t", "bad"] env0 =
      ([("IMAGE_INDEXER_PACKAGE_TAG", "t")],
       .error (.validation (msgPositionalArgsNotAllowed "bad"))) := by
  refine ⟨?_, ?_, rfl⟩
  · intro argv env kv hkv
    exact parseLoop_writes_tag argv.length argv le_rfl defaultConfig env kv hkv
  · intro env t rest ht
    rw [parseArguments, parseLoop_indexer_step t rest defaultConfig env ht]
    exact List.mem_cons_self _ _

/-- C9 witness: the tag write is present for a concrete argv. -/
theorem claim_C9_witness :
    ("IMAGE_INDEXER_PACKAGE_TAG", "x") ∈
      (parseArguments [FLAGS_INDEXER_LOCAL, "x"] env0).1 :=
  claim_C9.2.1 env0 "x" [] (by decide)

/-- A token starting with a dash differs from any token that does not. -/
lemma ne_of_dash (v w : String) (h : strStartsWith v "-" = true)
    (hw : strStartsWith w "-" = false) : v ≠ w := by
  intro e
  rw [e, hw] at h
  cases h

/-- A token starting with a dash does not start with a slash. -/
lemma dash_not_slash (v : String) (h : strStartsWith v "-" = true) :
    strStartsWith v "/" = false := by
  unfold strStartsWith at h ⊢
  rw [List.isPrefixOf_iff_prefix] at h
  rw [show ("-" : String).data = ['-'] from rfl] at h
  rw [show ("/" : String).data = ['/'] from rfl]
  rw [Bool.eq_false_iff, Ne, List.isPrefixOf_iff_prefix]
  intro hcontra
  obtain ⟨t1, ht1⟩ := h
  obtain ⟨t2, ht2⟩ := hcontra
  rw [← ht1] at ht2
  simp at ht2

/-- C6 amended: the plugins-root flag (and its aliases), the OS and OSD
version flags, the agents-up flag and the two server flags each raise
their flag-specific `ValidationError` when the value token is absent or
starts with a dash; the repo flag is excluded (see the counterexample). -/
theorem claim_C6_amended :
    (∀ env : EnvironmentPaths,
      (parseArguments [FLAGS_PLUGINS_ROOT] env).2 =
        .error (.validation (msgFlagRequiresAbsolutePath FLAGS_PLUGINS_ROOT)) ∧
      (parseArguments [FLAGS_PLUGINS_ROOT_WDP] env).2 =
        .error (.validation (msgFlagRequiresAbsolutePath FLAGS_PLUGINS_ROOT)) ∧
      (parseArguments [FLAGS_PLUGINS_ROOT_WZ_HOME] env).2 =
        .error (.validation (msgFlagRequiresAbsolutePath FLAGS_PLUGINS_ROOT)) ∧
      (parseArguments [FLAGS_OS_VERSION] env).2 =
        .error (.validation (msgFlagRequiresValue FLAGS_OS_VERSION "2.11.0")) ∧
      (parseArguments [FLAGS_OSD_VERSION] env).2 =
        .error (.validation (msgFlagRequiresValue FLAGS_OSD_VERSION "2.11.0")) ∧
      (parseArguments [FLAGS_AGENTS_UP] env).2 =
        .error (.validation (msgInvalidAgentsUp FLAGS_AGENTS_UP)) ∧
      (parseArguments [FLAGS_SERVER] env).2 =
        .error (.validation msgServerFlagRequiresValue) ∧
      (parseArguments [FLAGS_SERVER_LOCAL] env).2 =
        .error (.validation msgServerLocalFlagRequiresValue)) ∧
    (∀ (env : EnvironmentPaths) (v : String), strStartsWith v "-" = true →
      (parseArguments [FLAGS_PLUGINS_ROOT, v] env).2 =
        .error (.validation (msgFlagRequiresAbsolutePath FLAGS_PLUGINS_ROOT)) ∧
      (parseArguments [FLAGS_PLUGINS_ROOT_WDP, v] env).2 =
        .error (.validation (msgFlagRequiresAbsolutePath FLAGS_PLUGINS_ROOT)) ∧
      (parseArguments [FLAGS_PLUGINS_ROOT_WZ_HOME, v] env).2 =
        .error (.validation (msgFlagRequiresAbsolutePath FLAGS_PLUGINS_ROOT)) ∧
      (parseArguments [FLAGS_OS_VERSION, v] env).2 =
        .error (.validation (msgFlagRequiresValue FLAGS_OS_VERSION "2.11.0")) ∧
      (parseArguments [FLAGS_OSD_VERSION, v] env).2 =
        .error (.validation (msgFlagRequiresValue FLAGS_OSD_VERSION "2.11.0")) ∧
      (parseArguments [FLAGS_AGENTS_UP, v] env).2 =
        .error (.validation (msgInvalidAgentsUp FLAGS_AGENTS_UP)) ∧
      (parseArguments [FLAGS_SERVER, v] env).2 =
        .error (.validation msgServerFlagRequiresValue) ∧
      (parseArguments [FLAGS_SERVER_LOCAL, v] env).2 =
        .error (.validation msgServerLocalFlagRequiresValue)) := by
  constructor
  · intro env
    exact ⟨rfl, rfl, rfl, rfl, rfl, rfl, rfl, rfl⟩
  · intro env v hv
    have hslash := dash_not_slash v hv
    refine ⟨?_, ?_, ?_, ?_, ?_, ?_, ?_, ?_⟩
    · have h := parseLoop.eq_3 defaultConfig env FLAGS_PLUGINS_ROOT v []
      dsimp only at h
      rw [if_neg (by decide), if_pos (Or.inl rfl), if_pos hslash] at h
      exact congrArg Prod.snd h
    · have h := parseLoop.eq_3 defaultConfig env FLAGS_PLUGINS_ROOT_WDP v []
      dsimp only at h
      rw [if_neg (by decide), if_pos (Or.inr (Or.inl rfl)), if_pos hslash] at h
      exact congrArg Prod.snd h
    · have h := parseLoop.eq_3 defaultConfig env FLAGS_PLUGINS_ROOT_WZ_HOME v []
      dsimp only at h
      rw [if_neg (by decide), if_pos (Or.inr (Or.inr rfl)), if_pos hslash] at h
      exact congrArg Prod.snd h
    · have h := parseLoop.eq_3 defaultConfig env FLAGS_OS_VERSION v []
      dsimp only at h
      rw [if_neg (by decide), if_neg (by decide), if_pos rfl,
        if_pos (Or.inr hv)] at h
      exact congrArg Prod.snd h
    · have h := parseLoop.eq_3 defaultConfig env FLAGS_OSD_VERSION v []
      dsimp only at h
      rw [if_neg (by decide), if_neg (by decide), if_neg (by decide),
        if_pos rfl, if_pos (Or.inr hv)] at h
      exact congrArg Prod.snd h
    · have h := parseLoop.eq_3 defaultConfig env FLAGS_AGENTS_UP v []
      dsimp only at h
      rw [if_neg (by decide), if_neg (by decide), if_neg (by decide),
        if_neg (by decide), if_pos rfl,
        if_neg (show ¬(v = "none" ∨ v = "0") from by
          rintro (h1 | h1)
          · exact ne_of_dash v "none" hv (by decide) h1
          · exact ne_of_dash v "0" hv (by decide) h1),
        if_neg (show ¬(v = "rpm" ∨ v = "deb" ∨ v = "without" ∨ v = "") from by
          rintro (h1 | h1 | h1 | h1)
          · exact ne_of_dash v "rpm" hv (by decide) h1
          · exact ne_of_dash v "deb" hv (by decide) h1
          · exact ne_of_dash v "without" hv (by decide) h1
          · exact ne_of_dash v "" hv (by decide) h1)] at h
      exact congrArg Prod.snd h
    · have h := parseLoop.eq_3 defaultConfig env FLAGS_SERVER v []
      dsimp only at h
      rw [if_neg (by decide), if_neg (by decide), if_neg (by decide),
        if_neg (by decide), if_neg (by decide), if_neg (by decide),
        if_pos rfl, if_pos (Or.inr hv)] at h
      exact congrArg Prod.snd h
    · have h := parseLoop.eq_3 defaultConfig env FLAGS_SERVER_LOCAL v []
      dsimp only at h
      rw [if_neg (by decide), if_neg (by decide), if_neg (by decide),
        if_neg (by decide), if_neg (by decide), if_neg (by decide),
        if_neg (by decide), if_pos rfl, if_pos (Or.inr hv)] at h
      exact congrArg Prod.snd h

/-- The configuration produced by the C6 counterexample parse. -/
def cfgC6x : Config := { userRepositories := [⟨"-x", "/p"⟩] }

/-- C6 counterexample: the repo flag accepts a dash-leading value
(`-x=/p`) without any `ValidationError` — the parse succeeds. -/
theorem claim_C6_counterexample :
    (parseArguments [FLAGS_REPO, "-x=/p"] env0).2 = .ok cfgC6x := rfl

/-- C6 amended witness: concrete absent-value and dash-value failures. -/
theorem claim_C6_amended_witness :
    (parseArguments [FLAGS_OS_VERSION] env0).2 =
      .error (.validation (msgFlagRequiresValue FLAGS_OS_VERSION "2.11.0")) ∧
    (parseArguments [FLAGS_PLUGINS_ROOT, "-x"] env0).2 =
      .error (.validation (msgFlagRequiresAbsolutePath FLAGS_PLUGINS_ROOT)) :=
  ⟨(claim_C6_amended.1 env0).2.2.2.1,
   (claim_C6_amended.2 env0 "-x" (by decide)).1⟩

/-- C8: shorthand repo with a known security-plugin alias records an
override under the CANONICAL security-plugin repository name below the
sibling root; without a sibling root the shorthand fails with
`ValidationError`. -/
theorem claim_C8 :
    (∀ (env : EnvironmentPaths) (name : String), name ∈ SECURITY_PLUGIN_ALIASES →
      env.siblingRepoHostRoot ≠ "" → env.currentRepoHostRoot = "" →
      ensureAccessibleHostPath
          (stripTrailingSlash (pathResolve env.siblingRepoHostRoot SECURITY_PLUGIN_REPO_NAME))
          ("Repository path for '" ++ name ++ "'") env = .ok () →
      (parseArguments [FLAGS_REPO, name] env).2.map (fun c => c.userRepositories) =
        .ok [⟨name,
          stripTrailingSlash (pathResolve env.siblingRepoHostRoot SECURITY_PLUGIN_REPO_NAME)⟩]) ∧
    (∀ (env : EnvironmentPaths) (name : String), strContainsChar name '=' = false →
      env.siblingRepoHostRoot = "" →
      (parseArguments [FLAGS_REPO, name] env).2 =
        .error (.validation
          (msgCannotResolveRepositoryUnderCommonParent name FLAGS_REPO
            "SIBLING_REPO_HOST_ROOT"))) := by
  constructor
  · intro env name hmem hsib hcur hacc
    have hmem2 : name = "security" ∨ name = "security-plugin" := by
      simpa [SECURITY_PLUGIN_ALIASES] using hmem
    have key : ∀ nm : String, nm = "security" ∨ nm = "security-plugin" →
        strContainsChar nm '=' = false → nm ∈ SECURITY_PLUGIN_ALIASES →
        ensureAccessibleHostPath
          (stripTrailingSlash (pathResolve env.siblingRepoHostRoot SECURITY_PLUGIN_REPO_NAME))
          ("Repository path for '" ++ nm ++ "'") env = .ok () →
        (parseArguments [FLAGS_REPO, nm] env).2.map (fun c => c.userRepositories) =
          .ok [⟨nm,
            stripTrailingSlash (pathResolve env.siblingRepoHostRoot SECURITY_PLUGIN_REPO_NAME)⟩] := by
      intro nm _ hne hmem3 hacc2
      have h := parseLoop.eq_3 defaultConfig env FLAGS_REPO nm []
      dsimp only at h
      rw [if_neg (by decide), if_neg (by decide), if_neg (by decide),
        if_neg (by decide), if_neg (by decide), if_neg (by decide),
        if_neg (by decide), if_neg (by decide), if_pos rfl,
        if_neg (by simp [hne]), if_pos hmem3, if_neg hsib, hacc2] at h
      rw [parseArguments, h, parseLoop]
      simp [finishParse, resolveDashboardBase, checkDashboardBase,
        defaultPluginsRoot, checkPluginsRoot, applyModeFlags, defaultConfig,
        hcur, Except.map]
    rcases hmem2 with rfl | rfl
    · exact key "security" (Or.inl rfl) (by decide) (by decide) hacc
    · exact key "security-plugin" (Or.inr rfl) (by decide) (by decide) hacc
  · intro env name hne hsib
    have h := parseLoop.eq_3 defaultConfig env FLAGS_REPO name []
    dsimp only at h
    rw [if_neg (by decide), if_neg (by decide), if_neg (by decide),
      if_neg (by decide), if_neg (by decide), if_neg (by decide),
      if_neg (by decide), if_neg (by decide), if_pos rfl,
      if_neg (by simp [hne]), if_pos hsib] at h
    exact congrArg Prod.snd h

/-- Ambient environment of the C8 witness: a sibling root with an
identity mount and an all-true filesystem. -/
def envC8w : EnvironmentPaths :=
  { siblingRepoHostRoot := "/sib", mounts := [("", "")], fsExists := fun _ => true }

/-- C8 witness: `--repo security` resolves under the sibling root to the
canonical security-plugin repository name; with no sibling root it fails. -/
theorem claim_C8_witness :
    (parseArguments [FLAGS_REPO, "security"] envC8w).2.map (fun c => c.userRepositories) =
      .ok [⟨"security", "/sib/wazuh-security-dashboards-plugin"⟩] ∧
    (parseArguments [FLAGS_REPO, "security"] env0).2 =
      .error (.validation
        (msgCannotResolveRepositoryUnderCommonParent "security" FLAGS_REPO
          "SIBLING_REPO_HOST_ROOT")) :=
  ⟨(claim_C8.1 envC8w "security" (by decide) (by decide) rfl rfl).trans rfl,
   claim_C8.2 env0 "security" (by decide) rfl⟩
